import Mathlib

/-!
Shallow embedding of the conversation/analytics orchestration layer of an
AI-powered chatbot (source files `chatbot.py`, `analytics.py`, `web_app.py`).

Conventions of the embedding:
* Python dicts with string keys holding per-label counters become
  insertion-ordered association lists `List (String × Nat)`.
* Python floats (confidence scores) become `ℚ`; the source performs only
  addition and one division, so rational arithmetic models it exactly up to
  floating-point rounding, which no claim depends on.
* Message timestamps (`datetime.now`) are elided: they are wall-clock values
  no verified property mentions.
* The two calls into the external AI collaborator (sentiment classification
  and reply generation) are oracles: their outputs are passed to the
  embedded `chat` as explicit arguments.  A fallible variant `chatE` takes
  the generation result as an `Except`, modelling a raising collaborator.
* `SentimentAnalyzer` lives in `sentiment.py`, which is not part of the
  verified sources; its history-accumulation behaviour (append on analyze,
  clear on clear_history, counts in get_summary_stats) is modelled from the
  spec where noted.
-/

namespace AIChat

/-- Source: `SentimentResult` record produced per user turn by the sentiment
collaborator (fields per the data model: sentiment / emotion /
emotion_intensity / confidence / reasoning). -/
structure SentimentResult where
  sentiment : String
  emotion : String
  emotion_intensity : String
  confidence : ℚ
  reasoning : String
deriving DecidableEq

/-- Source: `ConversationRole` enum from `chatbot.py`. -/
inductive ConversationRole where
  | user
  | assistant
  | system
deriving DecidableEq

/-- Source: `Message` dataclass from `chatbot.py` (timestamp elided, see header). -/
structure Message where
  role : ConversationRole
  content : String
  sentiment : Option SentimentResult := none
deriving DecidableEq

/-- Source: `ConversationState` from `chatbot.py`. -/
structure ConversationState where
  mood : String
  engagement_level : String
  topics_discussed : List String
  sentiment_trend : String
  last_emotion : String
deriving DecidableEq

/-- Source: `ConversationState.__init__`. -/
def ConversationState.init : ConversationState :=
  { mood := "neutral"
    engagement_level := "normal"
    topics_discussed := []
    sentiment_trend := "stable"
    last_emotion := "neutral" }

/-- Source: `ConversationState.update` (chatbot.py lines 50-61). -/
def ConversationState.update (s : ConversationState)
    (sentiment_result : SentimentResult) : ConversationState :=
  { s with
    mood := sentiment_result.sentiment
    last_emotion := sentiment_result.emotion
    engagement_level :=
      if sentiment_result.emotion_intensity = "high" then "high"
      else if sentiment_result.emotion_intensity = "low" then "low"
      else "normal" }

/-- Default system prompt seeded by `Chatbot.__init__` (chatbot.py lines 98-102). -/
def defaultSystemPrompt : String :=
  "You are a friendly, intelligent AI assistant. " ++
  "You are empathetic, helpful, and adapt your communication style " ++
  "based on the user's emotional state."

/-- The `Chatbot` session state: the stored system prompt, the message
history, the running `ConversationState`, and the sentiment analyzer's
accumulated history (`sentiment.py` is outside the verified sources; the
spec fixes that `analyze` appends each result to an ordered history and
`clear_history` empties it, which is all the embedding carries). -/
structure Chatbot where
  system_prompt : String
  history : List Message
  state : ConversationState
  sentiment_history : List SentimentResult
deriving DecidableEq

/-- Source: `Chatbot.__init__` with an explicit system prompt (the Python default
argument corresponds to `Chatbot.init defaultSystemPrompt`): seeds the
history with the system message. -/
def Chatbot.init (system_prompt : String) : Chatbot :=
  { system_prompt := system_prompt
    history := [{ role := .system, content := system_prompt }]
    state := ConversationState.init
    sentiment_history := [] }

/-- Modelled from the spec: `SentimentAnalyzer.get_summary_stats`
(`sentiment.py`, not under the verified sources) returns counts over the
analyzer's accumulated history, at minimum `total_messages`. -/
structure SummaryStats where
  total_messages : Nat
deriving DecidableEq

/-- Modelled from the spec: summary statistics are a function of the
analyzer's accumulated sentiment history. -/
def getSummaryStats (h : List SentimentResult) : SummaryStats :=
  { total_messages := h.length }

/-- Source: `Chatbot._get_mood_context` (chatbot.py lines 187-196). -/
def Chatbot.mood_context (c : Chatbot) : String :=
  "Current mood: " ++ c.state.mood ++ " | " ++
  "Emotion: " ++ c.state.last_emotion ++ " | " ++
  "Engagement: " ++ c.state.engagement_level ++ " | " ++
  "Messages: " ++ toString (getSummaryStats c.sentiment_history).total_messages

/-- The bundle returned by `Chatbot.chat` (chatbot.py lines 155-160). -/
structure ChatResult where
  response : String
  sentiment : SentimentResult
  state : ConversationState
  mood_context : String
deriving DecidableEq

/-- Source: `Chatbot.chat` (chatbot.py lines 126-160), with the two collaborator
calls passed as oracle arguments: `sr` is what
`self.sentiment_analyzer.analyze(user_message)` classified (the analyzer
appends it to its history — spec §4.2), `reply` is what
`self.ai_client.generate_reply(...)` returned.  Steps in source order:
analyze, state update, user-message append, response generation
(`reply.strip()`), assistant-message append. -/
def Chatbot.chat (c : Chatbot) (user_message : String)
    (sr : SentimentResult) (reply : String) : Chatbot × ChatResult :=
  let c1 : Chatbot := { c with sentiment_history := c.sentiment_history ++ [sr] }
  let c2 : Chatbot := { c1 with state := c1.state.update sr }
  let c3 : Chatbot :=
    { c2 with history := c2.history ++ [{ role := .user, content := user_message, sentiment := some sr }] }
  let response := reply.trim
  let c4 : Chatbot :=
    { c3 with history := c3.history ++ [{ role := .assistant, content := response }] }
  (c4, { response := response
         sentiment := sr
         state := c4.state
         mood_context := c4.mood_context })

/-- Fallible variant of `Chatbot.chat`: the reply-generation oracle may
raise (`Except.error`).  `chat` has no exception handler, so a raise in
step 4 propagates after the mutations of steps 1-3 have already been
applied to `self`; the error case therefore carries the state as mutated so
far. -/
def Chatbot.chatE (c : Chatbot) (user_message : String)
    (sr : SentimentResult) (gen : Except String String) :
    Except (String × Chatbot) (Chatbot × ChatResult) :=
  let c1 : Chatbot := { c with sentiment_history := c.sentiment_history ++ [sr] }
  let c2 : Chatbot := { c1 with state := c1.state.update sr }
  let c3 : Chatbot :=
    { c2 with history := c2.history ++ [{ role := .user, content := user_message, sentiment := some sr }] }
  match gen with
  | .error e => .error (e, c3)
  | .ok reply =>
      let response := reply.trim
      let c4 : Chatbot :=
        { c3 with history := c3.history ++ [{ role := .assistant, content := response }] }
      .ok (c4, { response := response
                 sentiment := sr
                 state := c4.state
                 mood_context := c4.mood_context })

/-- Source: `Chatbot.reset` (chatbot.py lines 246-251): clears history, fresh
`ConversationState`, clears the analyzer's history, re-seeds the system
message from the stored prompt. -/
def Chatbot.reset (c : Chatbot) : Chatbot :=
  { c with
    history := [{ role := .system, content := c.system_prompt }]
    state := ConversationState.init
    sentiment_history := [] }

/-- Source: `Chatbot.set_personality` (chatbot.py lines 253-266): stores the new
prompt; if history is non-empty and its first entry has the system role,
replaces that entry in place with a fresh system `Message`. -/
def Chatbot.set_personality (c : Chatbot) (personality : String) : Chatbot :=
  let c1 : Chatbot := { c with system_prompt := personality }
  match c1.history with
  | [] => c1
  | m :: rest =>
      if m.role = .system then
        { c1 with history := { role := .system, content := personality } :: rest }
      else c1

/-- Source: `Chatbot.get_statistics` (chatbot.py lines 233-244).  `total_messages`
is `len(self.history) - 1` computed in ℤ (Python subtraction). -/
structure Statistics where
  total_messages : Int
  user_messages : Nat
  assistant_messages : Nat
  sentiment_stats : SummaryStats
  conversation_state : ConversationState
deriving DecidableEq

/-- Source: `Chatbot.get_statistics` (chatbot.py lines 233-244). -/
def Chatbot.get_statistics (c : Chatbot) : Statistics :=
  { total_messages := (c.history.length : Int) - 1
    user_messages := (c.history.filter (fun m => m.role = .user)).length
    assistant_messages := (c.history.filter (fun m => m.role = .assistant)).length
    sentiment_stats := getSummaryStats c.sentiment_history
    conversation_state := c.state }

/-- Rendering of `ConversationRole.value`. -/
def ConversationRole.value : ConversationRole → String
  | .user => "user"
  | .assistant => "assistant"
  | .system => "system"

/-- Source: `Chatbot.get_history` (chatbot.py lines 198-200): the history rendered
entry-wise as dictionaries (timestamp elided, see header). -/
def Chatbot.get_history (c : Chatbot) : List (String × String × Option SentimentResult) :=
  c.history.map (fun m => (m.role.value, m.content, m.sentiment))

/-- Iterating completed `chat` turns: each list element supplies one turn's
user message together with the two collaborator oracle outputs. -/
def Chatbot.runTurns (c : Chatbot) : List (String × SentimentResult × String) → Chatbot
  | [] => c
  | (msg, sr, reply) :: rest => ((c.chat msg sr reply).1).runTurns rest

/-- Optional record returned by `SmartChatbot._detect_mood_shift`. -/
structure MoodShift where
  direction : String
  «from» : String
  «to» : String
deriving DecidableEq

/-- The `mood_values` ordinal table (chatbot.py line 308) with the
`dict.get(x, 0)` default for labels outside the table. -/
def moodValues (s : String) : Int :=
  if s = "positive" then 1
  else if s = "neutral" then 0
  else if s = "negative" then -1
  else 0

/-- Source: `SmartChatbot._detect_mood_shift` (chatbot.py lines 296-319) as a
function of the threshold and the accumulated `previous_moods` list.
`previous_moods[-threshold:]` is the whole list when `threshold = 0`
(Python slice `[-0:]`), otherwise the trailing `threshold` elements;
`len(set(recent)) == 1` is the number of distinct labels; `recent[-2]` /
`recent[-1]` are positional reads guarded by `len(recent) >= 2`. -/
def detectMoodShift (threshold : Nat) (previous_moods : List String) : Option MoodShift :=
  if previous_moods.length < threshold then none
  else
    let recent :=
      if threshold = 0 then previous_moods
      else previous_moods.drop (previous_moods.length - threshold)
    if recent.dedup.length = 1 then none
    else if 2 ≤ recent.length then
      let prev := recent.getD (recent.length - 2) ""
      let curr := recent.getD (recent.length - 1) ""
      let prev_val := moodValues prev
      let curr_val := moodValues curr
      if prev_val < curr_val then some { direction := "improving", «from» := prev, «to» := curr }
      else if curr_val < prev_val then some { direction := "declining", «from» := prev, «to» := curr }
      else none
    else none

/-- The bundle returned by `SmartChatbot.chat`: the base bundle plus the
mood-shift field.  The `ui_hints` entry is a pure presentational lookup no
claim touches and is elided from the embedding. -/
structure SmartChatResult where
  base : ChatResult
  mood_shift_detected : Option MoodShift
deriving DecidableEq

/-- Source: `SmartChatbot` session state: the inherited `Chatbot` state plus the
mood-shift threshold (set to 2 in `__init__`) and the accumulated
`previous_moods` label list. -/
structure SmartChatbot where
  base : Chatbot
  mood_shift_threshold : Nat
  previous_moods : List String
deriving DecidableEq

/-- Source: `SmartChatbot.__init__` (chatbot.py lines 275-278): the base constructor
runs with the default system prompt, threshold 2, empty mood list. -/
def SmartChatbot.init : SmartChatbot :=
  { base := Chatbot.init defaultSystemPrompt
    mood_shift_threshold := 2
    previous_moods := [] }

/-- Source: `SmartChatbot.chat` (chatbot.py lines 280-294): runs the base turn,
appends `result["sentiment"]["sentiment"]` (that is, the turn's sentiment
label) to `previous_moods`, then detects a shift over the updated list. -/
def SmartChatbot.chat (c : SmartChatbot) (user_message : String)
    (sr : SentimentResult) (reply : String) : SmartChatbot × SmartChatResult :=
  let br := c.base.chat user_message sr reply
  let moods := c.previous_moods ++ [sr.sentiment]
  let c2 : SmartChatbot := { c with base := br.1, previous_moods := moods }
  (c2, { base := br.2
         mood_shift_detected := detectMoodShift c.mood_shift_threshold moods })

/-- Source: `reset` is inherited from `Chatbot` unchanged: it touches only the base
attributes (history, state, analyzer history); `previous_moods` and the
threshold are not among them. -/
def SmartChatbot.reset (c : SmartChatbot) : SmartChatbot :=
  { c with base := c.base.reset }

/-- One entry of the `sentiment_history` dictionaries consumed by
`ConversationAnalytics._calculate_statistics`: a dict whose `sentiment`,
`emotion` and `confidence` keys may each be absent (`item.get` defaults are
applied inside the statistics). -/
structure SentimentItem where
  sentiment : Option String
  emotion : Option String
  confidence : Option ℚ
deriving DecidableEq

/-- Source: `SentimentResult.to_dict` restricted to the keys the statistics read
(`get_sentiment_history` feeds such dicts to the analytics). -/
def SentimentResult.toItem (r : SentimentResult) : SentimentItem :=
  { sentiment := some r.sentiment
    emotion := some r.emotion
    confidence := some r.confidence }

/-- Source: `Chatbot.get_sentiment_history` (chatbot.py lines 209-211): the
analyzer's accumulated history rendered entry-wise as dictionaries
(modelled from the spec for the missing `sentiment.py`:
`get_history_dicts` renders the ordered history it accumulated). -/
def Chatbot.get_sentiment_history (c : Chatbot) : List SentimentItem :=
  c.sentiment_history.map SentimentResult.toItem

/-- Python `d[k] = d.get(k, 0) + 1` on an insertion-ordered dict: an
existing key keeps its position, a new key is appended at the end. -/
def incr : List (String × Nat) → String → List (String × Nat)
  | [], k => [(k, 1)]
  | (k', v) :: rest, k =>
      if k' = k then (k', v + 1) :: rest else (k', v) :: incr rest k

/-- Python `d.get(k, 0)` on the association-list model of a dict. -/
def dlookup : List (String × Nat) → String → Nat
  | [], _ => 0
  | (k', v) :: rest, k => if k' = k then v else dlookup rest k

/-- Scanning loop of Python `max(d, key=d.get)`: keeps the current best and
replaces it only on a strictly greater value, so ties go to the earliest
key in iteration (= insertion) order. -/
def maxByValGo (bk : String) (bv : Nat) : List (String × Nat) → String
  | [] => bk
  | (k, v) :: rest => if bv < v then maxByValGo k v rest else maxByValGo bk bv rest

/-- Python `max(d, key=d.get)` over an insertion-ordered non-empty dict
(the `[]` case is unreachable in the source, which guards with
`if sentiment_dist`). -/
def maxByVal : List (String × Nat) → String
  | [] => "neutral"
  | (k, v) :: rest => maxByValGo k v rest

/-- Statistics record returned by
`ConversationAnalytics._calculate_statistics`; on the empty history the
source returns a dict without the two `dominant_*` keys, modelled by
`none`. -/
structure Stats where
  total_messages : Nat
  sentiment_distribution : List (String × Nat)
  emotion_distribution : List (String × Nat)
  average_confidence : ℚ
  dominant_sentiment : Option String
  dominant_emotion : Option String
deriving DecidableEq

/-- Loop body of `_calculate_statistics` (analytics.py lines 158-168): one
pass accumulating both distributions and the confidence total. -/
def statsStep (acc : List (String × Nat) × List (String × Nat) × ℚ)
    (item : SentimentItem) : List (String × Nat) × List (String × Nat) × ℚ :=
  (incr acc.1 (item.sentiment.getD "neutral"),
   incr acc.2.1 (item.emotion.getD "neutral"),
   acc.2.2 + item.confidence.getD (1/2))

/-- Source: `ConversationAnalytics._calculate_statistics` (analytics.py lines
143-177). -/
def calcStatistics (sentiment_history : List SentimentItem) : Stats :=
  if sentiment_history = [] then
    { total_messages := 0
      sentiment_distribution := []
      emotion_distribution := []
      average_confidence := 0
      dominant_sentiment := none
      dominant_emotion := none }
  else
    let acc := sentiment_history.foldl statsStep ([], [], 0)
    { total_messages := sentiment_history.length
      sentiment_distribution := acc.1
      emotion_distribution := acc.2.1
      average_confidence := acc.2.2 / sentiment_history.length
      dominant_sentiment :=
        some (if acc.1 = [] then "neutral" else maxByVal acc.1)
      dominant_emotion :=
        some (if acc.2.1 = [] then "neutral" else maxByVal acc.2.1) }

/-- The "label with the highest count, ties broken by the first maximum in
iteration order" characterisation: `k` carries value `v` somewhere in `d`,
every key before it counts strictly less, every key after it at most `v`. -/
def IsFirstMax (d : List (String × Nat)) (k : String) : Prop :=
  ∃ v d₁ d₂, d = d₁ ++ (k, v) :: d₂ ∧
    (∀ p ∈ d₁, p.2 < v) ∧ (∀ p ∈ d₂, p.2 ≤ v)

/-- The `summary` sub-dict of a full report as the text formatter reads it:
each scalar key may be absent; `key_points` absent and `key_points` empty
are both falsy in the source and collapse to `[]`. -/
structure SummaryPayload where
  summary : Option String
  overall_tone : Option String
  user_mood_journey : Option String
  key_points : List String
deriving DecidableEq

/-- The `trends` sub-dict as the text formatter reads it. -/
structure TrendsPayload where
  trend : Option String
  direction : Option String
  analysis : Option String
  prediction : Option String
  mood_shifts : List String
deriving DecidableEq

/-- The `keywords` sub-dict as the text formatter reads it (each list key
absent or empty is falsy and collapses to `[]`). -/
structure KeywordsPayload where
  keywords : List String
  themes : List String
  topics_of_interest : List String
deriving DecidableEq

/-- The `statistics` sub-dict as the text formatter reads it. -/
structure StatsDict where
  total_messages : Option Nat
  average_confidence : Option ℚ
  dominant_sentiment : Option String
  dominant_emotion : Option String
  sentiment_distribution : List (String × Nat)
  emotion_distribution : List (String × Nat)
deriving DecidableEq

/-- A full report record as consumed by
`ReportGenerator.generate_text_report`: every top-level key may be absent
(`report.get(key, default)` throughout the formatter). -/
structure Report where
  summary : Option SummaryPayload
  trends : Option TrendsPayload
  keywords : Option KeywordsPayload
  statistics : Option StatsDict
  mood_graph : Option String
  emotion_profile : Option String
deriving DecidableEq

/-- The report in which every collaborator-derived field is absent. -/
def Report.empty : Report :=
  { summary := none, trends := none, keywords := none,
    statistics := none, mood_graph := none, emotion_profile := none }

/-- Python `"c" * n`. -/
def strRepeat (c : Char) (n : Nat) : String :=
  String.mk (List.replicate n c)

/-- Python `str.capitalize()`: first character upper-cased, the rest
lower-cased. -/
def pyCapitalize (s : String) : String :=
  match s.data with
  | [] => ""
  | c :: rest => String.mk (c.toUpper :: rest.map Char.toLower)

/-- Python `f"form:.1%"` on a rational: percentage with one decimal digit
(half-way values here round up rather than to even, a difference no
verified input exercises; confidences are non-negative). -/
def formatPct (q : ℚ) : String :=
  let m : Int := round (q * 1000)
  toString (m / 10) ++ "." ++ toString (m % 10) ++ "%"

/-- Summary section of the text report (analytics.py lines 210-222). -/
def summarySection (summary : SummaryPayload) : List String :=
  ["📊 CONVERSATION SUMMARY", strRepeat '-' 40,
   "Summary: " ++ summary.summary.getD "N/A",
   "Overall Tone: " ++ summary.overall_tone.getD "N/A",
   "Mood Journey: " ++ summary.user_mood_journey.getD "N/A"] ++
  (if summary.key_points ≠ [] then
     ["\nKey Points:"] ++ summary.key_points.map (fun point => "  • " ++ point)
   else []) ++
  [""]

/-- Trends section of the text report (analytics.py lines 225-238). -/
def trendsSection (trends : TrendsPayload) : List String :=
  ["📈 SENTIMENT TRENDS", strRepeat '-' 40,
   "Trend: " ++ trends.trend.getD "N/A",
   "Direction: " ++ trends.direction.getD "N/A",
   "Analysis: " ++ trends.analysis.getD "N/A",
   "Prediction: " ++ trends.prediction.getD "N/A"] ++
  (if trends.mood_shifts ≠ [] then
     ["\nMood Shifts:"] ++ trends.mood_shifts.map (fun shift => "  ↔ " ++ shift)
   else []) ++
  [""]

/-- Keywords section of the text report (analytics.py lines 241-254). -/
def keywordsSection (keywords : KeywordsPayload) : List String :=
  ["🔑 KEYWORDS & THEMES", strRepeat '-' 40] ++
  (if keywords.keywords ≠ [] then
     ["Keywords: " ++ String.intercalate ", " keywords.keywords] else []) ++
  (if keywords.themes ≠ [] then
     ["Themes: " ++ String.intercalate ", " keywords.themes] else []) ++
  (if keywords.topics_of_interest ≠ [] then
     ["Topics of Interest: " ++ String.intercalate ", " keywords.topics_of_interest]
   else []) ++
  [""]

/-- Statistics section of the text report (analytics.py lines 257-277);
`sorted(..., key=lambda x: -x[1])[:5]` is a stable descending sort by
count, truncated to five entries. -/
def statsSection (stats : StatsDict) : List String :=
  ["📉 STATISTICS", strRepeat '-' 40,
   "Total Messages Analyzed: " ++ toString (stats.total_messages.getD 0),
   "Average Confidence: " ++ formatPct (stats.average_confidence.getD 0),
   "Dominant Sentiment: " ++ stats.dominant_sentiment.getD "N/A",
   "Dominant Emotion: " ++ stats.dominant_emotion.getD "N/A"] ++
  (if stats.sentiment_distribution ≠ [] then
     ["\nSentiment Distribution:"] ++
       stats.sentiment_distribution.map
         (fun p => "  " ++ pyCapitalize p.1 ++ ": " ++ toString p.2)
   else []) ++
  (if stats.emotion_distribution ≠ [] then
     ["\nEmotion Distribution:"] ++
       ((stats.emotion_distribution.mergeSort (fun a b => b.2 ≤ a.2)).take 5).map
         (fun p => "  " ++ pyCapitalize p.1 ++ ": " ++ toString p.2)
   else []) ++
  [""]

/-- Mood-graph, emotion-profile and footer sections (analytics.py lines
280-294). -/
def tailSection (mood_graph emotion_profile : Option String) : List String :=
  ["📊 MOOD VISUALIZATION", strRepeat '-' 40,
   mood_graph.getD "No visualization available.", "",
   "🎭 EMOTION PROFILE", strRepeat '-' 40,
   emotion_profile.getD "No profile available.", "",
   strRepeat '=' 60, "           END OF REPORT", strRepeat '=' 60]

/-- Source: `summary.get(..., {})` fallback: the empty summary dict. -/
def SummaryPayload.empty : SummaryPayload :=
  { summary := none, overall_tone := none, user_mood_journey := none,
    key_points := [] }

/-- Source: `trends.get(..., {})` fallback: the empty trends dict. -/
def TrendsPayload.empty : TrendsPayload :=
  { trend := none, direction := none, analysis := none, prediction := none,
    mood_shifts := [] }

/-- Source: `keywords.get(..., {})` fallback: the empty keywords dict. -/
def KeywordsPayload.empty : KeywordsPayload :=
  { keywords := [], themes := [], topics_of_interest := [] }

/-- Source: `stats.get(..., {})` fallback: the empty statistics dict. -/
def StatsDict.empty : StatsDict :=
  { total_messages := none, average_confidence := none,
    dominant_sentiment := none, dominant_emotion := none,
    sentiment_distribution := [], emotion_distribution := [] }

/-- The `lines` list built by `ReportGenerator.generate_text_report`
(analytics.py lines 203-294) as a function of the report record it
formats. -/
def generateTextLines (report : Report) : List String :=
  [strRepeat '=' 60, "           CONVERSATION ANALYTICS REPORT", strRepeat '=' 60, ""] ++
  summarySection (report.summary.getD SummaryPayload.empty) ++
  trendsSection (report.trends.getD TrendsPayload.empty) ++
  keywordsSection (report.keywords.getD KeywordsPayload.empty) ++
  statsSection (report.statistics.getD StatsDict.empty) ++
  tailSection report.mood_graph report.emotion_profile

/-- Source: `ReportGenerator.generate_text_report` (analytics.py line 295):
`"\n".join(lines)`. -/
def generate_text_report (report : Report) : String :=
  String.intercalate "\n" (generateTextLines report)

/-- Source: `item.get("sentiment", "neutral")`. -/
def sentKey (item : SentimentItem) : String := item.sentiment.getD "neutral"

/-- Source: `item.get("emotion", "neutral")`. -/
def emoKey (item : SentimentItem) : String := item.emotion.getD "neutral"

/-- Source: `float(item.get("confidence", 0.5))`. -/
def confVal (item : SentimentItem) : ℚ := item.confidence.getD (1/2)

/-- The three-entry sentiment history of the spec's worked statistics
example. -/
def statsExample : List SentimentItem :=
  [{ sentiment := some "positive", emotion := some "happy", confidence := some (9/10) },
   { sentiment := some "positive", emotion := some "happy", confidence := some (7/10) },
   { sentiment := some "negative", emotion := some "sad", confidence := some (1/2) }]

/-- A concrete sentiment classification used to exercise the fallible turn
pipeline. -/
def cexSentiment : SentimentResult :=
  { sentiment := "negative", emotion := "sad", emotion_intensity := "high",
    confidence := 9/10, reasoning := "r" }

/-- The session state left behind when reply generation raises inside
`chat` (the `Except.error` branch of `chatE`). -/
def chatFailState (c : Chatbot) (msg : String) (sr : SentimentResult) : Chatbot :=
  match c.chatE msg sr (.error "boom") with
  | .error (_, c') => c'
  | .ok (c', _) => c'

end AIChat

namespace AIChat

/-- Helper: the mood-shift detector with window 2 on a list ending in the
two labels `a`, `b`. -/
theorem detectMoodShift_two_append (init : List String) (a b : String) :
    detectMoodShift 2 (init ++ [a, b]) =
      if a = b then none
      else if moodValues a < moodValues b then
        some { direction := "improving", «from» := a, «to» := b }
      else if moodValues b < moodValues a then
        some { direction := "declining", «from» := a, «to» := b }
      else none := by
  have hdrop : (init ++ [a, b]).drop (init.length + 2 - 2) = [a, b] := by
    simp [List.drop_left init [a, b]]
  unfold detectMoodShift
  simp only [List.length_append, List.length_cons, List.length_nil]
  rw [show init.length + (1 + 1) = init.length + 2 by ring] at *
  simp only [hdrop]
  by_cases hab : a = b
  · subst hab
    simp [List.dedup_cons_of_mem, List.mem_singleton]
  · have hd : ([a, b] : List String).dedup = [a, b] := by
      rw [List.dedup_cons_of_not_mem (by simp [hab])]
      simp
    simp [hd, hab]

/-- Helper: fewer than two recorded labels give no shift. -/
theorem detectMoodShift_short (moods : List String) (h : moods.length < 2) :
    detectMoodShift 2 moods = none := by
  unfold detectMoodShift
  simp [h]

/-- Helper: a single completed turn appends exactly the user message (with
its sentiment) followed by the assistant message (trimmed reply, no
sentiment). -/
theorem chat_appends_two (c : Chatbot) (msg : String) (sr : SentimentResult)
    (reply : String) :
    ((c.chat msg sr reply).1).history =
      c.history ++ [{ role := .user, content := msg, sentiment := some sr },
                    { role := .assistant, content := reply.trim }] := by
  simp [Chatbot.chat]

/-- Helper: iterating turns grows the history by two entries per turn. -/
theorem runTurns_history_length (ts : List (String × SentimentResult × String)) :
    ∀ c : Chatbot, ((c.runTurns ts)).history.length = c.history.length + 2 * ts.length := by
  induction ts with
  | nil => intro c; simp [Chatbot.runTurns]
  | cons t rest ih =>
      intro c
      obtain ⟨msg, sr, reply⟩ := t
      rw [Chatbot.runTurns, ih]
      simp [Chatbot.chat]
      ring

/-- C1: with detection window 2, `_detect_mood_shift` reports no shift on
fewer than two recorded labels; on a history ending in labels a, b it
reports no shift when they are identical, improving (from a to b) when
their ordinals under positive↦1 / neutral↦0 / negative↦-1 strictly
increase, declining when they strictly decrease, and no shift in any
remaining case; in particular [positive, positive] gives no shift,
[negative, positive] improving, [positive, negative] declining. -/
theorem mood_shift_detection_spec :
    (∀ moods : List String, moods.length < 2 → detectMoodShift 2 moods = none) ∧
    (∀ (init : List String) (a b : String),
        detectMoodShift 2 (init ++ [a, b]) =
          if a = b then none
          else if moodValues a < moodValues b then
            some { direction := "improving", «from» := a, «to» := b }
          else if moodValues b < moodValues a then
            some { direction := "declining", «from» := a, «to» := b }
          else none) ∧
    moodValues "positive" = 1 ∧ moodValues "neutral" = 0 ∧ moodValues "negative" = -1 ∧
    detectMoodShift 2 ["positive", "positive"] = none ∧
    detectMoodShift 2 ["negative", "positive"] =
      some { direction := "improving", «from» := "negative", «to» := "positive" } ∧
    detectMoodShift 2 ["positive", "negative"] =
      some { direction := "declining", «from» := "positive", «to» := "negative" } := by
  refine ⟨detectMoodShift_short, detectMoodShift_two_append, ?_, ?_, ?_, ?_, ?_, ?_⟩
  · decide
  · decide
  · decide
  · decide
  · decide
  · decide

/-- Witness for C1: the hypothesis `moods.length < 2` discharged at the
concrete single-label history. -/
theorem mood_shift_detection_spec_witness :
    (["neutral"] : List String).length < 2 ∧ detectMoodShift 2 ["neutral"] = none :=
  ⟨by decide, mood_shift_detection_spec.1 ["neutral"] (by decide)⟩

/-- C2: from a fresh `Chatbot` (and equally after any `reset`), the history
length after any sequence of completed turns is 1 (the seeded system
message) plus twice the number of turns, because each completed turn
appends exactly one user and one assistant message. -/
theorem chat_history_length_invariant :
    (∀ (c : Chatbot) (msg : String) (sr : SentimentResult) (reply : String),
        ((c.chat msg sr reply).1).history =
          c.history ++ [{ role := .user, content := msg, sentiment := some sr },
                        { role := .assistant, content := reply.trim }]) ∧
    (∀ (p : String) (ts : List (String × SentimentResult × String)),
        ((Chatbot.init p).runTurns ts).history.length = 1 + 2 * ts.length) ∧
    (∀ (c : Chatbot) (ts : List (String × SentimentResult × String)),
        ((c.reset).runTurns ts).history.length = 1 + 2 * ts.length) := by
  refine ⟨chat_appends_two, ?_, ?_⟩
  · intro p ts
    rw [runTurns_history_length]
    simp [Chatbot.init]
  · intro c ts
    rw [runTurns_history_length]
    simp [Chatbot.reset]

/-- C5: `_calculate_statistics` on the empty history returns zero total
messages, empty distributions, zero average confidence, and no dominant
labels (the source's empty-case dict omits the `dominant_*` keys, which the
embedding renders as `none`). -/
theorem calculate_statistics_empty_spec :
    calcStatistics [] =
      { total_messages := 0
        sentiment_distribution := []
        emotion_distribution := []
        average_confidence := 0
        dominant_sentiment := none
        dominant_emotion := none } := rfl

/-- C6: `reset()` restores the exact state a freshly constructed agent with
the same system prompt has, so every statistics/analytics read
(`get_statistics`, `get_history`, `get_sentiment_history`, and
`_calculate_statistics` over the agent's sentiment history) agrees with the
fresh agent; the inherited `SmartChatbot` reset restores its base state the
same way. -/
theorem reset_fresh_equivalence :
    (∀ c : Chatbot, c.reset = Chatbot.init c.system_prompt) ∧
    (∀ c : Chatbot, (c.reset).get_statistics = (Chatbot.init c.system_prompt).get_statistics) ∧
    (∀ c : Chatbot, (c.reset).get_history = (Chatbot.init c.system_prompt).get_history) ∧
    (∀ c : Chatbot,
        (c.reset).get_sentiment_history = (Chatbot.init c.system_prompt).get_sentiment_history) ∧
    (∀ c : Chatbot,
        calcStatistics ((c.reset).get_sentiment_history) =
          calcStatistics ((Chatbot.init c.system_prompt).get_sentiment_history)) ∧
    (∀ sc : SmartChatbot, (sc.reset).base = Chatbot.init sc.base.system_prompt) := by
  refine ⟨fun c => rfl, fun c => rfl, fun c => rfl, fun c => rfl, fun c => rfl, fun sc => rfl⟩

/-- C3: `ConversationState.update` sets `engagement_level` as a pure function
of the incoming result's `emotion_intensity` alone (high→high, low→low,
anything else→normal), independent of the prior state, and unconditionally
overwrites `mood` with the result's sentiment and `last_emotion` with the
result's emotion. -/
theorem conversationState_update_spec :
    ∀ (s s' : ConversationState) (r : SentimentResult),
      ((s.update r).engagement_level = (s'.update r).engagement_level) ∧
      ((s.update r).engagement_level =
        if r.emotion_intensity = "high" then "high"
        else if r.emotion_intensity = "low" then "low"
        else "normal") ∧
      ((s.update r).mood = r.sentiment) ∧
      ((s.update r).last_emotion = r.emotion) := by
  intro s s' r
  refine ⟨rfl, rfl, rfl, rfl⟩

/-- C9: `set_personality` always stores the new prompt; when history is
non-empty and starts with a system-role message it replaces exactly that
first entry with a new system message carrying the text (same length, all
later entries untouched); when history is empty or starts with a
non-system message, history is left entirely unchanged. -/
theorem set_personality_spec (c : Chatbot) (p : String) :
    ((c.set_personality p).system_prompt = p) ∧
    ((c.set_personality p).history.length = c.history.length) ∧
    (∀ i, 0 < i → (c.set_personality p).history[i]? = c.history[i]?) ∧
    (c.history = [] → (c.set_personality p).history = []) ∧
    (∀ m rest, c.history = m :: rest → m.role = .system →
        (c.set_personality p).history = { role := .system, content := p } :: rest) ∧
    (∀ m rest, c.history = m :: rest → m.role ≠ .system →
        (c.set_personality p).history = c.history) := by
  refine ⟨?_, ?_, ?_, ?_, ?_, ?_⟩
  · unfold Chatbot.set_personality
    cases c.history with
    | nil => rfl
    | cons m rest =>
        by_cases hm : m.role = ConversationRole.system <;> simp [hm]
  · unfold Chatbot.set_personality
    cases hh : c.history with
    | nil => simp [hh]
    | cons m rest =>
        by_cases hm : m.role = ConversationRole.system <;> simp [hh, hm]
  · intro i hi
    unfold Chatbot.set_personality
    cases hh : c.history with
    | nil => simp [hh]
    | cons m rest =>
        by_cases hm : m.role = ConversationRole.system
        · simp only [hh, hm, if_pos rfl]
          cases i with
          | zero => exact absurd hi (by omega)
          | succ j => simp
        · simp [hh, hm]
  · intro hh
    unfold Chatbot.set_personality
    simp [hh]
  · intro m rest hh hm
    unfold Chatbot.set_personality
    simp [hh, hm]
  · intro m rest hh hm
    unfold Chatbot.set_personality
    simp [hh, hm]

/-- Witness for C9: the hypotheses discharged on a freshly constructed
chatbot, whose history starts with the seeded system message. -/
theorem set_personality_spec_witness :
    (0 : Nat) < 1 ∧
    ((Chatbot.init "p").set_personality "q").history[1]? = (Chatbot.init "p").history[1]? ∧
    (Chatbot.init "p").history =
      ({ role := .system, content := "p" } : Message) :: [] ∧
    (({ role := .system, content := "p" } : Message)).role = ConversationRole.system ∧
    ((Chatbot.init "p").set_personality "q").history =
      { role := .system, content := "q" } :: [] :=
  ⟨by decide,
   (set_personality_spec (Chatbot.init "p") "q").2.2.1 1 (by decide),
   rfl, rfl,
   (set_personality_spec (Chatbot.init "p") "q").2.2.2.2.1
     { role := .system, content := "p" } [] rfl rfl⟩

/-- C10: the inherited `reset` clears only the base attributes (history,
conversation state, analyzer history) and leaves `previous_moods` and the
threshold untouched, so the first turn after a reset runs shift detection
comparing the new sentiment label against the last pre-reset label — on a
non-empty pre-reset label list the detector compares that last label with
the new one, whereas a freshly constructed agent's first turn always
reports no shift. -/
theorem reset_preserves_previous_moods (sc : SmartChatbot) :
    ((sc.reset).previous_moods = sc.previous_moods) ∧
    ((sc.reset).mood_shift_threshold = sc.mood_shift_threshold) ∧
    ((sc.reset).base.history = [{ role := .system, content := sc.base.system_prompt }]) ∧
    ((sc.reset).base.sentiment_history = []) ∧
    ((sc.reset).base.state = ConversationState.init) ∧
    (∀ msg sr reply,
        (((sc.reset).chat msg sr reply).2).mood_shift_detected =
          detectMoodShift sc.mood_shift_threshold (sc.previous_moods ++ [sr.sentiment])) ∧
    (∀ (msg : String) (sr : SentimentResult) (reply : String)
        (init : List String) (a : String),
        sc.mood_shift_threshold = 2 → sc.previous_moods = init ++ [a] →
        (((sc.reset).chat msg sr reply).2).mood_shift_detected =
          (if a = sr.sentiment then none
           else if moodValues a < moodValues sr.sentiment then
             some { direction := "improving", «from» := a, «to» := sr.sentiment }
           else if moodValues sr.sentiment < moodValues a then
             some { direction := "declining", «from» := a, «to» := sr.sentiment }
           else none)) ∧
    (∀ msg sr reply,
        ((SmartChatbot.init.chat msg sr reply).2).mood_shift_detected = none) := by
  refine ⟨rfl, rfl, rfl, rfl, rfl, fun msg sr reply => rfl, ?_, ?_⟩
  · intro msg sr reply init a ht hm
    have h1 : (((sc.reset).chat msg sr reply).2).mood_shift_detected =
        detectMoodShift sc.mood_shift_threshold (sc.previous_moods ++ [sr.sentiment]) := rfl
    rw [h1, ht, hm, List.append_assoc]
    exact detectMoodShift_two_append init a sr.sentiment
  · intro msg sr reply
    have h1 : ((SmartChatbot.init.chat msg sr reply).2).mood_shift_detected =
        detectMoodShift 2 [sr.sentiment] := rfl
    rw [h1]
    exact detectMoodShift_short [sr.sentiment] (by simp)

/-- Witness for C10: a concrete agent whose pre-reset labels end in
"positive" sees its first post-reset turn with a "negative" classification
reported as declining. -/
theorem reset_preserves_previous_moods_witness :
    ({ SmartChatbot.init with previous_moods := ["positive"] } : SmartChatbot).mood_shift_threshold = 2 ∧
    ({ SmartChatbot.init with previous_moods := ["positive"] } : SmartChatbot).previous_moods =
      [] ++ ["positive"] ∧
    ((({ SmartChatbot.init with previous_moods := ["positive"] } : SmartChatbot).reset.chat
        "hi" cexSentiment "ok").2).mood_shift_detected =
      (if "positive" = cexSentiment.sentiment then none
       else if moodValues "positive" < moodValues cexSentiment.sentiment then
         some { direction := "improving", «from» := "positive", «to» := cexSentiment.sentiment }
       else if moodValues cexSentiment.sentiment < moodValues "positive" then
         some { direction := "declining", «from» := "positive", «to» := cexSentiment.sentiment }
       else none) :=
  ⟨rfl, rfl,
   (reset_preserves_previous_moods
      { SmartChatbot.init with previous_moods := ["positive"] }).2.2.2.2.2.2.1
     "hi" cexSentiment "ok" [] "positive" rfl rfl⟩

/-- C7 counterexample: running a turn whose reply generation raises leaves
the already-appended user message in the history with no assistant reply —
the history after the fatal failure is the seeded system message plus a
dangling user message, refuting "no message is appended for the
uncompleted step". -/
theorem chat_atomicity_cex :
    (Chatbot.init "p").chatE "hi" cexSentiment (Except.error "boom") =
      Except.error ("boom", chatFailState (Chatbot.init "p") "hi" cexSentiment) ∧
    (chatFailState (Chatbot.init "p") "hi" cexSentiment).history =
      [{ role := .system, content := "p" },
       { role := .user, content := "hi", sentiment := some cexSentiment }] ∧
    (Chatbot.init "p").history = [{ role := .system, content := "p" }] := by
  refine ⟨rfl, rfl, rfl⟩

/-- C7 amended: `chat` is not atomic on fatal failure — a successful
generation appends the user and assistant messages; a raising generation
propagates after steps 1-3 have mutated the session, so exactly the user
message (with its sentiment), the state update and the analyzer-history
append persist, and no assistant message is appended for the failed
turn. -/
theorem chat_partial_turn_persistence (c : Chatbot) (msg : String)
    (sr : SentimentResult) :
    (∀ reply, c.chatE msg sr (Except.ok reply) = Except.ok (c.chat msg sr reply)) ∧
    (∀ e, ∃ c', c.chatE msg sr (Except.error e) = Except.error (e, c') ∧
        c'.history = c.history ++ [{ role := .user, content := msg, sentiment := some sr }] ∧
        c'.state = c.state.update sr ∧
        c'.sentiment_history = c.sentiment_history ++ [sr] ∧
        c'.system_prompt = c.system_prompt) := by
  refine ⟨fun reply => rfl, ?_⟩
  intro e
  refine ⟨_, rfl, ?_, rfl, rfl, rfl⟩
  simp [Chatbot.chatE]

/-- Helper: the element returned by the Python `max(..., key=...)` scan is
a first maximum of the assoc list headed by the running best. -/
theorem maxByValGo_decomp (rest : List (String × Nat)) :
    ∀ (bk : String) (bv : Nat),
      ∃ v d₁ d₂, ((bk, bv) :: rest : List (String × Nat)) =
          d₁ ++ (maxByValGo bk bv rest, v) :: d₂ ∧
        (∀ p ∈ d₁, p.2 < v) ∧ (∀ p ∈ d₂, p.2 ≤ v) := by
  induction rest with
  | nil =>
      intro bk bv
      exact ⟨bv, [], [], by simp [maxByValGo], by simp, by simp⟩
  | cons q t ih =>
      intro bk bv
      obtain ⟨k, w⟩ := q
      by_cases h : bv < w
      · obtain ⟨v, d₁, d₂, hdec, h₁, h₂⟩ := ih k w
        have hgo : maxByValGo bk bv ((k, w) :: t) = maxByValGo k w t := by
          simp [maxByValGo, h]
        cases d₁ with
        | nil =>
            simp only [List.nil_append] at hdec
            obtain ⟨hpair, ht⟩ := List.cons_eq_cons.mp hdec
            refine ⟨v, [(bk, bv)], d₂, ?_, ?_, h₂⟩
            · rw [hgo]
              simp only [List.cons_append, List.nil_append]
              rw [← hdec]
            · intro p hp
              simp only [List.mem_singleton] at hp
              subst hp
              have hv : w = v := (Prod.mk.injEq _ _ _ _ |>.mp hpair).2
              simpa [← hv] using h
        | cons p₁ d₁' =>
            simp only [List.cons_append] at hdec
            obtain ⟨hpair, ht⟩ := List.cons_eq_cons.mp hdec
            refine ⟨v, (bk, bv) :: (k, w) :: d₁', d₂, ?_, ?_, h₂⟩
            · rw [hgo]
              simp only [List.cons_append]
              rw [← ht]
            · intro p hp
              simp only [List.mem_cons] at hp
              rcases hp with hp | hp | hp
              · subst hp
                have hw : w < v := by
                  have := h₁ p₁ (by simp)
                  rwa [← hpair] at this
                exact lt_trans h hw
              · subst hp
                have := h₁ p₁ (by simp)
                rwa [← hpair] at this
              · exact h₁ p (by simp [hp])
      · obtain ⟨v, d₁, d₂, hdec, h₁, h₂⟩ := ih bk bv
        have hgo : maxByValGo bk bv ((k, w) :: t) = maxByValGo bk bv t := by
          simp [maxByValGo, h]
        have hwle : w ≤ bv := Nat.le_of_not_lt h
        cases d₁ with
        | nil =>
            simp only [List.nil_append] at hdec
            obtain ⟨hpair, ht⟩ := List.cons_eq_cons.mp hdec
            have hv : bv = v := (Prod.mk.injEq _ _ _ _ |>.mp hpair).2
            refine ⟨v, [], (k, w) :: d₂, ?_, by simp, ?_⟩
            · rw [hgo]
              simp only [List.nil_append]
              have hk : bk = maxByValGo bk bv t := (Prod.mk.injEq _ _ _ _ |>.mp hpair).1
              rw [← hk, ← hv, ht]
            · intro p hp
              simp only [List.mem_cons] at hp
              rcases hp with hp | hp
              · subst hp
                simpa [← hv] using hwle
              · exact h₂ p hp
        | cons p₁ d₁' =>
            simp only [List.cons_append] at hdec
            obtain ⟨hpair, ht⟩ := List.cons_eq_cons.mp hdec
            have hbv : bv < v := by
              have := h₁ p₁ (by simp)
              rw [← hpair] at this
              exact this
            refine ⟨v, (bk, bv) :: (k, w) :: d₁', d₂, ?_, ?_, h₂⟩
            · rw [hgo]
              simp only [List.cons_append]
              rw [← ht]
            · intro p hp
              simp only [List.mem_cons] at hp
              rcases hp with hp | hp | hp
              · subst hp
                exact hbv
              · subst hp
                exact lt_of_le_of_lt hwle hbv
              · exact h₁ p (by simp [hp])

theorem maxByVal_isFirstMax (d : List (String × Nat)) (h : d ≠ []) :
    IsFirstMax d (maxByVal d) := by
  cases d with
  | nil => exact absurd rfl h
  | cons q rest =>
      obtain ⟨k, v⟩ := q
      obtain ⟨v', d₁, d₂, hdec, h₁, h₂⟩ := maxByValGo_decomp rest k v
      exact ⟨v', d₁, d₂, by simpa [maxByVal] using hdec, h₁, h₂⟩

/-- Helper: per-key effect of one Python `d[k] = d.get(k, 0) + 1` update. -/
theorem dlookup_incr (d : List (String × Nat)) (k q : String) :
    dlookup (incr d k) q = dlookup d q + if q = k then 1 else 0 := by
  induction d with
  | nil =>
      by_cases hqk : q = k
      · subst hqk
        simp [incr, dlookup]
      · have hkq : ¬(k = q) := fun hh => hqk hh.symm
        simp [incr, dlookup, hqk, hkq]
  | cons p rest ih =>
      obtain ⟨a, v⟩ := p
      by_cases hak : a = k
      · subst hak
        by_cases hqa : q = a
        · subst hqa
          simp [incr, dlookup]
        · have haq : ¬(a = q) := fun hh => hqa hh.symm
          simp [incr, dlookup, haq, hqa]
      · by_cases haq : a = q
        · subst haq
          have hqk : ¬(a = k) := hak
          simp [incr, dlookup, hak, hqk, ih]
        · simp [incr, dlookup, hak, haq, ih]

theorem foldl_incr_lookup (ls : List String) :
    ∀ (d : List (String × Nat)) (q : String),
      dlookup (ls.foldl incr d) q = dlookup d q + ls.count q := by
  induction ls with
  | nil => intro d q; simp
  | cons a t ih =>
      intro d q
      simp only [List.foldl_cons]
      rw [ih, dlookup_incr]
      by_cases haq : q = a
      · simp [List.count_cons, beq_iff_eq, haq]
        omega
      · simp [List.count_cons, beq_iff_eq, haq]

theorem incr_ne_nil (d : List (String × Nat)) (k : String) : incr d k ≠ [] := by
  cases d with
  | nil => simp [incr]
  | cons p rest =>
      obtain ⟨a, v⟩ := p
      by_cases hak : a = k <;> simp [incr, hak]

theorem foldl_incr_ne_nil (ls : List String) :
    ∀ d : List (String × Nat), d ≠ [] ∨ ls ≠ [] → ls.foldl incr d ≠ [] := by
  induction ls with
  | nil =>
      intro d h
      rcases h with h | h
      · simpa using h
      · exact absurd rfl h
  | cons a t ih =>
      intro d _
      simp only [List.foldl_cons]
      exact ih (incr d a) (Or.inl (incr_ne_nil d a))

theorem foldl_statsStep (l : List SentimentItem) :
    ∀ (d₁ d₂ : List (String × Nat)) (cf : ℚ),
      l.foldl statsStep (d₁, d₂, cf) =
        ((l.map sentKey).foldl incr d₁,
         (l.map emoKey).foldl incr d₂,
         cf + (l.map confVal).sum) := by
  induction l with
  | nil => intro d₁ d₂ cf; simp
  | cons x t ih =>
      intro d₁ d₂ cf
      simp only [List.foldl_cons, List.map_cons, List.sum_cons]
      rw [show statsStep (d₁, d₂, cf) x =
            (incr d₁ (sentKey x), incr d₂ (emoKey x), cf + confVal x) from rfl]
      rw [ih]
      ring_nf

/-- C4: on every non-empty sentiment history, `_calculate_statistics`
returns the sequence length as `total_messages`, frequency maps over the
`sentiment` / `emotion` fields (absent fields counted as "neutral"), the
arithmetic mean of the `confidence` fields (absent values defaulted to
0.5), and dominant labels that are first maxima of their distribution maps
in iteration (= insertion) order. -/
theorem calculate_statistics_nonempty_spec (l : List SentimentItem) (h : l ≠ []) :
    ((calcStatistics l).total_messages = l.length) ∧
    (∀ lab, dlookup (calcStatistics l).sentiment_distribution lab = (l.map sentKey).count lab) ∧
    (∀ lab, dlookup (calcStatistics l).emotion_distribution lab = (l.map emoKey).count lab) ∧
    ((calcStatistics l).average_confidence = (l.map confVal).sum / (l.length : ℚ)) ∧
    (∃ k, (calcStatistics l).dominant_sentiment = some k ∧
        IsFirstMax (calcStatistics l).sentiment_distribution k) ∧
    (∃ k, (calcStatistics l).dominant_emotion = some k ∧
        IsFirstMax (calcStatistics l).emotion_distribution k) := by
  have hsd : (l.map sentKey) ≠ [] := by simpa using h
  have hed : (l.map emoKey) ≠ [] := by simpa using h
  have hfold := foldl_statsStep l [] [] 0
  have hs : calcStatistics l =
      { total_messages := l.length
        sentiment_distribution := (l.map sentKey).foldl incr []
        emotion_distribution := (l.map emoKey).foldl incr []
        average_confidence := (0 + (l.map confVal).sum) / l.length
        dominant_sentiment :=
          some (if (l.map sentKey).foldl incr [] = [] then "neutral"
                else maxByVal ((l.map sentKey).foldl incr []))
        dominant_emotion :=
          some (if (l.map emoKey).foldl incr [] = [] then "neutral"
                else maxByVal ((l.map emoKey).foldl incr [])) } := by
    rw [calcStatistics, if_neg h, hfold]
  have hsnil := foldl_incr_ne_nil (l.map sentKey) [] (Or.inr hsd)
  have henil := foldl_incr_ne_nil (l.map emoKey) [] (Or.inr hed)
  refine ⟨by rw [hs], ?_, ?_, by rw [hs]; simp, ?_, ?_⟩
  · intro lab
    rw [hs]
    simpa [dlookup] using foldl_incr_lookup (l.map sentKey) [] lab
  · intro lab
    rw [hs]
    simpa [dlookup] using foldl_incr_lookup (l.map emoKey) [] lab
  · refine ⟨maxByVal ((l.map sentKey).foldl incr []), ?_, ?_⟩
    · rw [hs]
      simp [if_neg hsnil]
    · rw [hs]
      exact maxByVal_isFirstMax _ hsnil
  · refine ⟨maxByVal ((l.map emoKey).foldl incr []), ?_, ?_⟩
    · rw [hs]
      simp [if_neg henil]
    · rw [hs]
      exact maxByVal_isFirstMax _ henil

/-- Witness for C4: the theorem applied to the spec's worked three-entry
example, together with the concrete values it promises (total 3, average
0.7, dominant positive/happy). -/
theorem calculate_statistics_nonempty_spec_witness :
    statsExample ≠ [] ∧
    (calcStatistics statsExample).total_messages = statsExample.length ∧
    (calcStatistics statsExample).total_messages = 3 ∧
    (calcStatistics statsExample).sentiment_distribution = [("positive", 2), ("negative", 1)] ∧
    (calcStatistics statsExample).emotion_distribution = [("happy", 2), ("sad", 1)] ∧
    (calcStatistics statsExample).average_confidence = 7/10 ∧
    (calcStatistics statsExample).dominant_sentiment = some "positive" ∧
    (calcStatistics statsExample).dominant_emotion = some "happy" := by
  refine ⟨by decide, (calculate_statistics_nonempty_spec statsExample (by decide)).1,
    by decide, by decide, by decide, ?_, by decide, by decide⟩
  rw [calcStatistics, if_neg (by decide : ¬(statsExample = []))]
  norm_num [statsExample, statsStep]

/-- Helper: the percentage rendering of an absent average confidence. -/
theorem formatPct_zero : formatPct 0 = "0.0%" := by
  have h : round ((0 : ℚ) * 1000) = 0 := by norm_num
  simp only [formatPct, h]
  rfl

/-- Helper: the statistics section of the all-absent statistics dict. -/
theorem statsSection_empty :
    statsSection StatsDict.empty =
      ["📉 STATISTICS", strRepeat '-' 40, "Total Messages Analyzed: 0",
       "Average Confidence: 0.0%", "Dominant Sentiment: N/A",
       "Dominant Emotion: N/A", ""] := by
  simp [statsSection, StatsDict.empty, formatPct_zero]
  rfl

/-- Helper: anything in the summary section is in the report lines. -/
theorem mem_gtl_summary (r : Report) (x : String)
    (hx : x ∈ summarySection (r.summary.getD SummaryPayload.empty)) :
    x ∈ generateTextLines r := by
  simp only [generateTextLines, List.mem_append]
  tauto

/-- Helper: anything in the trends section is in the report lines. -/
theorem mem_gtl_trends (r : Report) (x : String)
    (hx : x ∈ trendsSection (r.trends.getD TrendsPayload.empty)) :
    x ∈ generateTextLines r := by
  simp only [generateTextLines, List.mem_append]
  tauto

/-- Helper: anything in the statistics section is in the report lines. -/
theorem mem_gtl_stats (r : Report) (x : String)
    (hx : x ∈ statsSection (r.statistics.getD StatsDict.empty)) :
    x ∈ generateTextLines r := by
  simp only [generateTextLines, List.mem_append]
  tauto

/-- Helper: anything in the tail sections is in the report lines. -/
theorem mem_gtl_tail (r : Report) (x : String)
    (hx : x ∈ tailSection r.mood_graph r.emotion_profile) :
    x ∈ generateTextLines r := by
  simp only [generateTextLines, List.mem_append]
  tauto

/-- Helper: the four header lines are in the report lines. -/
theorem mem_gtl_head (r : Report) (x : String)
    (hx : x ∈ [strRepeat '=' 60, "           CONVERSATION ANALYTICS REPORT",
               strRepeat '=' 60, ""]) :
    x ∈ generateTextLines r := by
  simp only [generateTextLines, List.mem_append]
  tauto

/-- C8 (amended): `generate_text_report` is total on every report record —
it always renders the fixed frame, and each absent field is replaced by its
per-field literal fallback: "N/A" for the scalar summary, trend and
dominant-label fields, `0` / `0.0%` for the numeric statistics, the fixed
sentences "No visualization available." / "No profile available." for the
mood graph and emotion profile, and silently omitted bullet lists. -/
theorem text_report_total_spec (r : Report) :
    ("           CONVERSATION ANALYTICS REPORT" ∈ generateTextLines r) ∧
    ("           END OF REPORT" ∈ generateTextLines r) ∧
    (generate_text_report r = String.intercalate "\n" (generateTextLines r)) ∧
    (r.summary = none →
      "Summary: N/A" ∈ generateTextLines r ∧
      "Overall Tone: N/A" ∈ generateTextLines r ∧
      "Mood Journey: N/A" ∈ generateTextLines r) ∧
    (r.trends = none →
      "Trend: N/A" ∈ generateTextLines r ∧
      "Direction: N/A" ∈ generateTextLines r ∧
      "Analysis: N/A" ∈ generateTextLines r ∧
      "Prediction: N/A" ∈ generateTextLines r) ∧
    (r.statistics = none →
      "Total Messages Analyzed: 0" ∈ generateTextLines r ∧
      "Average Confidence: 0.0%" ∈ generateTextLines r ∧
      "Dominant Sentiment: N/A" ∈ generateTextLines r ∧
      "Dominant Emotion: N/A" ∈ generateTextLines r) ∧
    (r.mood_graph = none → "No visualization available." ∈ generateTextLines r) ∧
    (r.emotion_profile = none → "No profile available." ∈ generateTextLines r) := by
  refine ⟨?_, ?_, rfl, ?_, ?_, ?_, ?_, ?_⟩
  · exact mem_gtl_head r _ (by decide)
  · exact mem_gtl_tail r _ (by simp [tailSection])
  · intro hs
    refine ⟨?_, ?_, ?_⟩ <;>
      exact mem_gtl_summary r _ (by rw [hs]; decide)
  · intro ht
    refine ⟨?_, ?_, ?_, ?_⟩ <;>
      exact mem_gtl_trends r _ (by rw [ht]; decide)
  · intro hst
    have hsec : statsSection (r.statistics.getD StatsDict.empty) =
        ["📉 STATISTICS", strRepeat '-' 40, "Total Messages Analyzed: 0",
         "Average Confidence: 0.0%", "Dominant Sentiment: N/A",
         "Dominant Emotion: N/A", ""] := by
      rw [hst]
      simp only [Option.getD_none]
      exact statsSection_empty
    refine ⟨?_, ?_, ?_, ?_⟩ <;>
      exact mem_gtl_stats r _ (by rw [hsec]; decide)
  · intro hmg
    exact mem_gtl_tail r _ (by simp [tailSection, hmg])
  · intro hep
    exact mem_gtl_tail r _ (by simp [tailSection, hep])

/-- Witness for C8 (amended): the hypotheses discharged at the all-absent
report. -/
theorem text_report_total_spec_witness :
    Report.empty.summary = none ∧ Report.empty.mood_graph = none ∧
    "Summary: N/A" ∈ generateTextLines Report.empty ∧
    "No visualization available." ∈ generateTextLines Report.empty :=
  ⟨rfl, rfl, ((text_report_total_spec Report.empty).2.2.2.1 rfl).1,
   (text_report_total_spec Report.empty).2.2.2.2.2.2.1 rfl⟩

/-- C8 counterexample: with every collaborator-derived field absent, the
absent mood graph is rendered as the line "No visualization available."
(line index 29) and the absent total-message count as
"Total Messages Analyzed: 0" (line index 22) — not as the literal
placeholder "N/A" the claim promises for each absent field. -/
theorem text_report_placeholder_cex :
    Report.empty.mood_graph = none ∧
    (generateTextLines Report.empty).getD 29 "" = "No visualization available." ∧
    ((generateTextLines Report.empty).getD 29 "" = "N/A") = False ∧
    (generateTextLines Report.empty).getD 22 "" = "Total Messages Analyzed: 0" ∧
    ((generateTextLines Report.empty).getD 22 "" = "N/A") = False := by
  refine ⟨rfl, by decide, by decide, by decide, by decide⟩

end AIChat
